import Mathlib

/-!
Verification of `self-watchdog-monitor.py`.

A shallow embedding of the system-monitoring agent in
`src/self-watchdog-monitor.py`, together with theorems settling the
spec's claims about it.

Modelling conventions:
* Python floats (percentages, rates, seconds) are modelled as `ℚ`;
  byte counters as `ℤ`.
* A Python call that may raise is modelled as an `Except Unit α` input
  (`.error ()` = the call raised); a `try/except` block becomes a
  `match` on that value.
* String rendering of numeric values (`f"{x:.2f}"` and the like) is
  abstracted: results carry the exact numeric payload together with a
  constructor tag recording which format string would render it.
* Mutable instance state (`self.prev_network_bytes`) is threaded
  explicitly: a method that mutates it takes the old value and returns
  the new one alongside its result.
-/

namespace SelfWatchdog

/-- A pair of cumulative network byte counters, as returned by
`SystemMonitor._get_network_bytes` (`(net_io.bytes_sent, net_io.bytes_recv)`,
source lines 86–89). -/
structure NetworkCounters where
  bytes_sent : ℤ
  bytes_recv : ℤ
deriving DecidableEq

/-- Result of `SystemMonitor.get_network_speed` (source lines 91–100).
`available s r` stands for the string
`f"↑ {s/1024:.2f} KB/s | ↓ {r/1024:.2f} KB/s"` with `s`, `r` the exact
send/receive rates in bytes per second; `unavailable` stands for the
string `"N/A"` returned by the bare `except:` branch. -/
inductive SpeedResult where
  | available (sent_speed recv_speed : ℚ)
  | unavailable
deriving DecidableEq

/-- Model of `SystemMonitor.get_network_speed` (source lines 91–100).

`prev` is `self.prev_network_bytes` on entry; `currentSample` is the
outcome of `self._get_network_bytes()` (`.error ()` if psutil raised);
`alert_interval` is `self.alert_interval`, the divisor of both rate
computations.  Returns the new `self.prev_network_bytes` and the result.

Control flow of the source: if `_get_network_bytes` raises, or the
division raises `ZeroDivisionError` (`alert_interval = 0`), the bare
`except:` returns `"N/A"` and — since line 97 is never reached —
`self.prev_network_bytes` keeps its old value.  Otherwise line 97
overwrites it with the current counters and the rate string is
returned. -/
def get_network_speed (prev : NetworkCounters)
    (currentSample : Except Unit NetworkCounters)
    (alert_interval : ℚ) : NetworkCounters × SpeedResult :=
  match currentSample with
  | .error _ => (prev, .unavailable)
  | .ok current =>
    if alert_interval = 0 then
      (prev, .unavailable)
    else
      ((current),
       .available ((current.bytes_sent - prev.bytes_sent) / alert_interval)
         ((current.bytes_recv - prev.bytes_recv) / alert_interval))

/-- The configuration constants of the source file (lines 1–9) that the
monitor copies into instance fields in `SystemMonitor.__init__`
(lines 38–52): `THRESHOLD = 80`, `ALERT_INTERVAL = 300`,
`STATUS_INTERVAL = 4` hours, converted to seconds at line 42. -/
def THRESHOLD : ℚ := 80
def ALERT_INTERVAL : ℚ := 300
def STATUS_INTERVAL_HOURS : ℚ := 4

/-- The part of `SystemMonitor`'s instance state the claims depend on.
`__init__` (source lines 38–52) sets `threshold`, `alert_interval`,
`status_interval := STATUS_INTERVAL * 3600`, and
`prev_network_bytes := self._get_network_bytes()` — the live counters
sampled at construction time. -/
structure MonitorState where
  threshold : ℚ
  alert_interval : ℚ
  status_interval : ℚ
  prev_network_bytes : NetworkCounters
deriving DecidableEq

/-- Model of `SystemMonitor.__init__` (source lines 38–52), restricted to the
state above.  `initialCounters` is the value `self._get_network_bytes()`
returned during construction. -/
def SystemMonitor.init (initialCounters : NetworkCounters) : MonitorState :=
  { threshold := THRESHOLD
    alert_interval := ALERT_INTERVAL
    status_interval := STATUS_INTERVAL_HOURS * 3600
    prev_network_bytes := initialCounters }

/-! ## Temperature resolution (`get_cpu_temperature`, source lines 102–137) -/

/-- Whether `needle` occurs at the head of `hay`. -/
def charsStartWith : List Char → List Char → Bool
  | _, [] => true
  | [], _ :: _ => false
  | a :: as, b :: bs => a = b && charsStartWith as bs

/-- Whether `needle` occurs contiguously anywhere in
`hay`?  Models the Python substring test `needle in hay`. -/
def charsContain : List Char → List Char → Bool
  | [], needle => needle.isEmpty
  | a :: rest, needle => charsStartWith (a :: rest) needle || charsContain rest needle

/-- Python's `needle in hay` on strings. -/
def strContains (hay needle : String) : Bool :=
  charsContain hay.data needle.data

/-- ASCII lowercasing of one character, modelling Python's `str.lower()`
on the ASCII sensor labels involved. -/
def lowerChar (c : Char) : Char :=
  if 65 ≤ c.toNat ∧ c.toNat ≤ 90 then Char.ofNat (c.toNat + 32) else c

/-- Python's `s.lower()`, as a character list. -/
def lowerStr (s : String) : List Char :=
  s.data.map lowerChar

instance {ε α : Type} [DecidableEq ε] [DecidableEq α] : DecidableEq (Except ε α) :=
  fun x y =>
    match x, y with
    | .ok a, .ok b => if h : a = b then .isTrue (by rw [h]) else .isFalse (by simp [h])
    | .error a, .error b => if h : a = b then .isTrue (by rw [h]) else .isFalse (by simp [h])
    | .ok _, .error _ => .isFalse (by simp)
    | .error _, .ok _ => .isFalse (by simp)

/-- One entry of `psutil.sensors_temperatures()`: a label and a current
temperature reading. -/
structure SensorEntry where
  label : String
  current : ℚ
deriving DecidableEq

/-- The environment `get_cpu_temperature` (source lines 102–137) reads.
Each fallible call is an `Except Unit _` (`.error ()` = the call raised,
which for the thermal-zone read includes `int(...)` parse failure). -/
structure TempEnv where
  /-- Result of `hasattr(psutil, "sensors_temperatures")` (line 106). -/
  has_sensors_api : Bool
  /-- Result of `psutil.sensors_temperatures()` (line 107), a name → entries map in
  iteration order. -/
  sensors_result : Except Unit (List (String × List SensorEntry))
  /-- Result of the existence test on the thermal-zone file (line 115). -/
  thermal_zone_exists : Bool
  /-- Result of `int(f.read())` on the thermal-zone file (lines 116–117): the raw
  millidegree value, or `.error ()` if the read or the parse raised. -/
  thermal_zone_read : Except Unit ℤ
  /-- Result of the existence test on the vcgencmd binary (line 121). -/
  vcgencmd_exists : Bool
  /-- Decoded output of `vcgencmd measure_temp` (lines 122–123). -/
  vcgencmd_result : Except Unit String
  /-- Decoded output of `sensors` (line 127), or `.error ()` if the
  command raised. -/
  sensors_cmd_result : Except Unit String
deriving DecidableEq

/-- Result of `get_cpu_temperature`, tagged by the source that produced
it.  `sensors c` stands for `f"{c}°C"` (line 112); `thermalZone m` for
`f"{m/1000.0}°C"` (lines 117–118); `vcgencmd s` / `sensorsCmd s` carry
the exact string the source returns; `unavailable` is `"N/A"`. -/
inductive TempReading where
  | sensors (current : ℚ)
  | thermalZone (milli : ℤ)
  | vcgencmd (s : String)
  | sensorsCmd (s : String)
  | unavailable
deriving DecidableEq

/-- The nested `for name, entries in temps.items(): for entry in entries:`
scan of lines 109–112: the first entry (in iteration order) whose
lowercased label contains one of `'core'`, `'cpu'`, `'package'`. -/
def firstMatchingEntry : List (String × List SensorEntry) → Option ℚ
  | [] => none
  | (_, entries) :: rest =>
    match entries.find? (fun e =>
        ["core", "cpu", "package"].any (fun x => charsContain (lowerStr e.label) x.data)) with
    | some e => some e.current
    | none => firstMatchingEntry rest

/-- Method 1 of `get_cpu_temperature` (lines 105–112): the psutil sensor
API.  `.ok (some r)` = returned `r`; `.ok none` = fell through;
`.error ()` = raised (caught by the outer handler). -/
def method1 (env : TempEnv) : Except Unit (Option TempReading) :=
  if env.has_sensors_api then
    match env.sensors_result with
    | .error _ => .error ()
    | .ok temps =>
      if temps.isEmpty then .ok none
      else .ok ((firstMatchingEntry temps).map .sensors)
  else .ok none

/-- Method 2 (lines 114–118): the thermal-zone pseudo-file, parsed as
millidegrees. -/
def method2 (env : TempEnv) : Except Unit (Option TempReading) :=
  if env.thermal_zone_exists then
    match env.thermal_zone_read with
    | .error _ => .error ()
    | .ok milli => .ok (some (.thermalZone milli))
  else .ok none

/-- Method 3 (lines 120–123): `vcgencmd measure_temp`, with `temp=`
stripped and the result trimmed. -/
def method3 (env : TempEnv) : Except Unit (Option TempReading) :=
  if env.vcgencmd_exists then
    match env.vcgencmd_result with
    | .error _ => .error ()
    | .ok out => .ok (some (.vcgencmd ((out.replace "temp=" "").trim)))
  else .ok none

/-- The parse step of method 4 (lines 128–130): scan the output lines
for the first containing `'Core 0'`; split it on `'+'` — index `[1]`
raises `IndexError` when absent, which the inner handler turns into a
fall-through — then take the part before `'°'`, trim, and append
`'°C'`. -/
def parseSensorsOutput (output : String) : Option TempReading :=
  match (output.splitOn "\n").find? (fun line => strContains line "Core 0") with
  | none => none
  | some line =>
    match line.splitOn "+" with
    | _ :: second :: _ =>
        some (.sensorsCmd ((((second.splitOn "°").headD "").trim) ++ "°C"))
    | _ => none

/-- Method 4 (lines 125–132): the `sensors` command-line tool.  Its own
`try/except` swallows every failure, so it never raises outward. -/
def method4 (env : TempEnv) : Option TempReading :=
  match env.sensors_cmd_result with
  | .error _ => none
  | .ok out => parseSensorsOutput out

/-- The body of the outer `try` of `get_cpu_temperature` (lines 104–134):
methods 1–4 in order, each `.ok none` falling through to the next, the
final fall-through returning `"N/A"` (line 134).  An `.error` from
methods 1–3 propagates to the outer handler. -/
def tempAttempt (env : TempEnv) : Except Unit TempReading :=
  match method1 env with
  | .error _ => .error ()
  | .ok (some r) => .ok r
  | .ok none =>
    match method2 env with
    | .error _ => .error ()
    | .ok (some r) => .ok r
    | .ok none =>
      match method3 env with
      | .error _ => .error ()
      | .ok (some r) => .ok r
      | .ok none => .ok ((method4 env).getD .unavailable)

/-- Model of `SystemMonitor.get_cpu_temperature` (lines 102–137): the outer
`except Exception` handler turns any raise from methods 1–3 into
`"N/A"` (lines 135–137). -/
def get_cpu_temperature (env : TempEnv) : TempReading :=
  match tempAttempt env with
  | .ok r => r
  | .error _ => .unavailable

/-- Method 1 yields no value: the API attribute is missing, or the call
succeeded but the map was empty or no entry's label matched. -/
def method1Unavailable (env : TempEnv) : Prop :=
  env.has_sensors_api = false ∨
    ∃ temps, env.sensors_result = .ok temps ∧ firstMatchingEntry temps = none

theorem method1_eq_none_of_unavailable (env : TempEnv)
    (h : method1Unavailable env) : method1 env = .ok none := by
  rcases h with h | ⟨temps, hok, hnone⟩
  · simp [method1, h]
  · by_cases ha : env.has_sensors_api
    · simp [method1, ha, hok, hnone]
    · simp [method1, ha]

/-- A concrete environment in which source (a) is unavailable, source
(b)'s file exists but its content fails to parse, and sources (c) and
(d) would both succeed. -/
def tempAbortEnv : TempEnv :=
  { has_sensors_api := false
    sensors_result := .ok []
    thermal_zone_exists := true
    thermal_zone_read := .error ()
    vcgencmd_exists := true
    vcgencmd_result := .ok "temp=42.0"
    sensors_cmd_result := .ok "Core 0:        +41.0°C  (high = +80.0°C)" }

/-- C5 counterexample: with source (a) unavailable, source (b)'s
thermal-zone file present but failing to parse, and source (c)
(`vcgencmd`) succeeding with `temp=42.0`, the claim says the parse
failure falls through and the first succeeding source — (c), value
`42.0` — is returned; the code instead lets the parse exception reach
the outer handler and returns unavailable. -/
theorem temperature_fallthrough_counterexample :
    get_cpu_temperature tempAbortEnv = .unavailable ∧
    tempAbortEnv.vcgencmd_exists = true ∧
    tempAbortEnv.vcgencmd_result = .ok "temp=42.0" ∧
    TempReading.unavailable ≠ .vcgencmd "42.0" :=
  ⟨rfl, rfl, rfl, by decide⟩

/-- C5 amended: the resolver tries sources (a)–(d) in fixed priority
order and returns the value of the first that yields one; if (a) yields
a value the result is (a)'s reading whatever the later sources hold.  A
source's *unavailability* — missing sensor API, empty or non-matching
sensor data, missing thermal-zone file, missing vcgencmd binary, or any
failure of the `sensors` command — falls through to the next source;
but an exception raised while reading source (b) (and likewise (a) or
(c)) aborts the chain and returns unavailable immediately instead of
falling through. -/
theorem temperature_priority_chain (env : TempEnv) :
    (∀ temps c, env.has_sensors_api = true → env.sensors_result = .ok temps →
      firstMatchingEntry temps = some c → get_cpu_temperature env = .sensors c)
  ∧ (∀ m, method1Unavailable env → env.thermal_zone_exists = true →
      env.thermal_zone_read = .ok m → get_cpu_temperature env = .thermalZone m)
  ∧ (∀ s, method1Unavailable env → env.thermal_zone_exists = false →
      env.vcgencmd_exists = true → env.vcgencmd_result = .ok s →
      get_cpu_temperature env = .vcgencmd ((s.replace "temp=" "").trim))
  ∧ (method1Unavailable env → env.thermal_zone_exists = false →
      env.vcgencmd_exists = false →
      get_cpu_temperature env = (method4 env).getD .unavailable)
  ∧ (method1Unavailable env → env.thermal_zone_exists = true →
      env.thermal_zone_read = .error () → get_cpu_temperature env = .unavailable) := by
  refine ⟨?_, ?_, ?_, ?_, ?_⟩
  · intro temps c hapi hok hfind
    have hne : ¬ temps.isEmpty := by
      cases temps with
      | nil => simp [firstMatchingEntry] at hfind
      | cons a rest => simp
    simp [get_cpu_temperature, tempAttempt, method1, hapi, hok, hne, hfind]
  · intro m h1 hex hok
    simp [get_cpu_temperature, tempAttempt, method1_eq_none_of_unavailable env h1,
      method2, hex, hok]
  · intro s h1 hz hvc hok
    simp [get_cpu_temperature, tempAttempt, method1_eq_none_of_unavailable env h1,
      method2, hz, method3, hvc, hok]
  · intro h1 hz hvc
    cases hm : method4 env <;>
      simp [get_cpu_temperature, tempAttempt, method1_eq_none_of_unavailable env h1,
        method2, hz, method3, hvc, hm]
  · intro h1 hex herr
    simp [get_cpu_temperature, tempAttempt, method1_eq_none_of_unavailable env h1,
      method2, hex, herr]

/-- A concrete environment in which source (a) yields a reading
(`Package id 0`, 55 °C) while every later source is also live. -/
def tempSensorsEnv : TempEnv :=
  { has_sensors_api := true
    sensors_result := .ok [("coretemp", [⟨"Package id 0", 55⟩])]
    thermal_zone_exists := true
    thermal_zone_read := .ok 48000
    vcgencmd_exists := true
    vcgencmd_result := .ok "temp=42.0"
    sensors_cmd_result := .ok "Core 0:        +41.0°C" }

/-- Witness for C5: on `tempSensorsEnv` source (a) matches the
`package` keyword and the resolver returns 55 °C from it, the later
sources notwithstanding. -/
theorem temperature_priority_chain_witness :
    get_cpu_temperature tempSensorsEnv = .sensors 55 :=
  (temperature_priority_chain tempSensorsEnv).1
    [("coretemp", [⟨"Package id 0", 55⟩])] 55 rfl rfl (by decide)

/-! ## Snapshot and threshold evaluation
(`get_system_metrics`, lines 164–185; `check_thresholds`, lines 239–272) -/

/-- Result of `psutil.cpu_freq()` as rendered at line 174:
`available mhz` stands for `f"{mhz/1000:.2f}GHz"`, `na` for the `"N/A"`
used when `cpu_freq` is falsy (`None`). -/
inductive FreqResult where
  | available (mhz : ℚ)
  | na
deriving DecidableEq

/-- The snapshot dict built by `get_system_metrics` on success
(lines 172–182).  Memory and swap sizes carry raw byte counts; their
`f"{x/(1024**3):.2f}GB"` rendering is abstracted. -/
structure Metrics where
  cpu_percent : ℚ
  cpu_freq : FreqResult
  cpu_temp : TempReading
  memory_total : ℚ
  memory_used : ℚ
  memory_percent : ℚ
  swap_used : ℚ
  swap_percent : ℚ
  network_speed : SpeedResult
deriving DecidableEq

/-- Model of `metrics.get(key, 0)` on the result of `get_system_metrics`:
`none` models the empty dict `{}` returned on failure (line 185), from
which every `.get` yields the default `0`. -/
def metricsGet (m : Option Metrics) (f : Metrics → ℚ) : ℚ :=
  match m with
  | none => 0
  | some mm => f mm

/-- One entry of the dict `get_disk_usage` (lines 139–162) returns:
a mountpoint and its usage percent.  The `total`/`used`/`free` GB
strings of the dict are abstracted away; the entries are listed in
`psutil.disk_partitions()` enumeration order, `/snap` mounts already
excluded and erroring partitions already skipped. -/
structure DiskUsage where
  mountpoint : String
  percent : ℚ
deriving DecidableEq

/-- The alerts `check_thresholds` can send, tagged; `alertTitle` below
gives the exact title string each one is sent with. -/
inductive Alert where
  | highRAM
  | highSwap
  | highCPU
  | highDisk (mountpoint : String)
deriving DecidableEq

/-- The title argument `check_thresholds` passes to
`send_telegram_message` for each alert (lines 246–271). -/
def alertTitle : Alert → String
  | .highRAM => "High RAM Usage Alert"
  | .highSwap => "High Swap Usage Alert"
  | .highCPU => "High CPU Usage Alert"
  | .highDisk m => "High Disk Usage Alert for " ++ m

/-- The alerts `check_thresholds` (lines 239–272) sends, in source
order: RAM, swap and CPU are each checked independently with `>=`
against the threshold (`metrics.get(_, 0)` reading `0` from an empty
dict), then the disk loop fires for the first listed mount at or over
the threshold and `break`s (line 272). -/
def check_thresholds_fired (metrics : Option Metrics) (disk_usage : List DiskUsage)
    (threshold : ℚ) : List Alert :=
  (if threshold ≤ metricsGet metrics Metrics.memory_percent then [.highRAM] else []) ++
  (if threshold ≤ metricsGet metrics Metrics.swap_percent then [.highSwap] else []) ++
  (if threshold ≤ metricsGet metrics Metrics.cpu_percent then [.highCPU] else []) ++
  (match disk_usage.find? (fun d => threshold ≤ d.percent) with
   | some d => [.highDisk d.mountpoint]
   | none => [])

/-- Is this alert the disk one? -/
def isDiskAlert : Alert → Bool
  | .highDisk _ => true
  | _ => false

/-- C1: on every snapshot and threshold, the CPU alert fires iff
`cpu_percent ≥ threshold` (inclusive), the RAM alert iff
`memory_percent ≥ threshold`, the swap alert iff
`swap_percent ≥ threshold`, each independently of every other field and
of the disk list. -/
theorem threshold_alerts_iff (m : Metrics) (disk : List DiskUsage) (T : ℚ) :
    (Alert.highCPU ∈ check_thresholds_fired (some m) disk T ↔ T ≤ m.cpu_percent)
  ∧ (Alert.highRAM ∈ check_thresholds_fired (some m) disk T ↔ T ≤ m.memory_percent)
  ∧ (Alert.highSwap ∈ check_thresholds_fired (some m) disk T ↔ T ≤ m.swap_percent) := by
  refine ⟨?_, ?_, ?_⟩ <;>
  · simp only [check_thresholds_fired, metricsGet, List.mem_append]
    cases hfind : disk.find? (fun d => decide (T ≤ d.percent)) <;>
      split_ifs <;> simp_all

theorem find?_first_offender (T : ℚ) (pre suf : List DiskUsage) (d : DiskUsage)
    (hpre : ∀ q ∈ pre, q.percent < T) (hd : T ≤ d.percent) :
    (pre ++ d :: suf).find? (fun q => decide (T ≤ q.percent)) = some d := by
  induction pre with
  | nil => simp [List.find?_cons_of_pos, hd]
  | cons a rest ih =>
    have ha : a.percent < T := hpre a (by simp)
    have : (a :: (rest ++ d :: suf)).find? (fun q => decide (T ≤ q.percent)) =
        (rest ++ d :: suf).find? (fun q => decide (T ≤ q.percent)) :=
      List.find?_cons_of_neg _ (by simp [not_le.mpr ha])
    simpa [this] using ih (fun q hq => hpre q (by simp [hq]))

/-- C2: disk evaluation emits at most one disk alert per tick; when the
disk list splits as `pre ++ d :: suf` with every mount in `pre` below
the threshold and `d` at or over it, the unique disk alert names `d`'s
mountpoint and is independent of the mounts `suf` after it; when every
mount is below the threshold, no disk alert fires. -/
theorem disk_alert_first_offender (m : Option Metrics) (disk : List DiskUsage) (T : ℚ) :
    ((check_thresholds_fired m disk T).filter isDiskAlert).length ≤ 1
  ∧ (∀ pre d suf, (∀ q ∈ pre, q.percent < T) → T ≤ d.percent →
      (check_thresholds_fired m (pre ++ d :: suf) T).filter isDiskAlert =
        [.highDisk d.mountpoint])
  ∧ ((∀ q ∈ disk, q.percent < T) →
      (check_thresholds_fired m disk T).filter isDiskAlert = []) := by
  refine ⟨?_, ?_, ?_⟩
  · simp only [check_thresholds_fired, List.filter_append]
    cases hfind : disk.find? (fun d => decide (T ≤ d.percent)) <;>
      split_ifs <;> simp [isDiskAlert]
  · intro pre d suf hpre hd
    simp only [check_thresholds_fired, List.filter_append,
      find?_first_offender T pre suf d hpre hd]
    split_ifs <;> simp [isDiskAlert]
  · intro hall
    have hfind : disk.find? (fun d => decide (T ≤ d.percent)) = none :=
      List.find?_eq_none.mpr (fun q hq => by simp [not_le.mpr (hall q hq)])
    simp only [check_thresholds_fired, List.filter_append, hfind]
    split_ifs <;> simp [isDiskAlert]

/-- Witness for C2: threshold 80 over mounts `/` at 50 %, `/home` at
90 %, `/var` at 95 % — exactly one disk alert fires and it names
`/home`, the first offender; `/var` is never reported. -/
theorem disk_alert_first_offender_witness :
    (check_thresholds_fired none [⟨"/", 50⟩, ⟨"/home", 90⟩, ⟨"/var", 95⟩] 80).filter
        isDiskAlert = [.highDisk "/home"] :=
  (disk_alert_first_offender none [⟨"/", 50⟩, ⟨"/home", 90⟩, ⟨"/var", 95⟩] 80).2.1
    [⟨"/", 50⟩] ⟨"/home", 90⟩ [⟨"/var", 95⟩] (by decide) (by norm_num)

/-- Fields the monitor reads from `psutil.virtual_memory()` (bytes and
percent). -/
structure MemInfo where
  total : ℚ
  used : ℚ
  percent : ℚ
deriving DecidableEq

/-- Fields the monitor reads from `psutil.swap_memory()`. -/
structure SwapInfo where
  used : ℚ
  percent : ℚ
deriving DecidableEq

/-- The environment one call of `get_system_metrics` (lines 164–185)
reads.  Each of the four psutil calls of lines 167–170 may raise
(`.error ()`); `cpu_freq` may instead return a falsy `None`
(`.ok none`), rendered `"N/A"` at line 174. -/
structure MetricsEnv where
  cpu_percent : Except Unit ℚ
  cpu_freq : Except Unit (Option ℚ)
  virtual_memory : Except Unit MemInfo
  swap_memory : Except Unit SwapInfo
  temp : TempEnv
  /-- The `_get_network_bytes()` sample taken inside
  `get_network_speed` during dict construction (line 181 via line 94). -/
  net_current : Except Unit NetworkCounters
deriving DecidableEq

/-- Model of `SystemMonitor.get_system_metrics` (lines 164–185).  The four psutil
calls run first (lines 167–170); if any of them raises, the handler at
lines 183–185 logs and returns the empty dict `{}` (modelled `none`)
without touching `self.prev_network_bytes`.  Otherwise the snapshot dict
is built, calling `get_cpu_temperature` and `get_network_speed` (which
replaces the stored previous counters on success). -/
def get_system_metrics (prev : NetworkCounters) (env : MetricsEnv)
    (alert_interval : ℚ) : NetworkCounters × Option Metrics :=
  match env.cpu_percent, env.cpu_freq, env.virtual_memory, env.swap_memory with
  | .ok cpu, .ok freq, .ok mem, .ok swap =>
    let ns := get_network_speed prev env.net_current alert_interval
    (ns.1, some
      { cpu_percent := cpu
        cpu_freq := match freq with | some f => .available f | none => .na
        cpu_temp := get_cpu_temperature env.temp
        memory_total := mem.total
        memory_used := mem.used
        memory_percent := mem.percent
        swap_used := swap.used
        swap_percent := swap.percent
        network_speed := ns.2 })
  | _, _, _, _ => (prev, none)

/-- A temperature environment in which every source is unavailable
without raising: the resolver returns `"N/A"`. -/
def quietTempEnv : TempEnv :=
  { has_sensors_api := false
    sensors_result := .ok []
    thermal_zone_exists := false
    thermal_zone_read := .error ()
    vcgencmd_exists := false
    vcgencmd_result := .error ()
    sensors_cmd_result := .error () }

/-- A concrete tick on which only `psutil.cpu_freq()` fails (it raises),
while CPU percent, memory, swap and the network sample are all fine. -/
def freqRaisesEnv : MetricsEnv :=
  { cpu_percent := .ok 12
    cpu_freq := .error ()
    virtual_memory := .ok ⟨17179869184, 8589934592, 50⟩
    swap_memory := .ok ⟨0, 0⟩
    temp := quietTempEnv
    net_current := .ok ⟨5000, 9000⟩ }

/-- C7 counterexample: on `freqRaisesEnv` the only failing metric is CPU
frequency, yet `get_system_metrics` returns the empty dict `{}` — the
whole sample is emptied, not just the one field degraded — because the
`except` at lines 183–185 covers all four psutil calls. -/
theorem single_metric_failure_counterexample :
    get_system_metrics ⟨0, 0⟩ freqRaisesEnv 300 = (⟨0, 0⟩, none) ∧
    freqRaisesEnv.cpu_percent = .ok 12 ∧
    freqRaisesEnv.virtual_memory = .ok ⟨17179869184, 8589934592, 50⟩ ∧
    freqRaisesEnv.swap_memory = .ok ⟨0, 0⟩ :=
  ⟨rfl, rfl, rfl, rfl⟩

/-- C7 amended: a metric that reports unavailability *by value* degrades
only its own field — `cpu_freq` returning `None` yields a snapshot whose
frequency field is `"N/A"` while every other field is still collected
(temperature and network following their own internal degradation) —
but a metric whose psutil call *raises* empties the whole sample: the
tick then returns `{}` with the stored network counters untouched. -/
theorem metric_degradation (prev : NetworkCounters) (env : MetricsEnv) (interval : ℚ) :
    (∀ cpu mem swap, env.cpu_percent = .ok cpu → env.cpu_freq = .ok none →
      env.virtual_memory = .ok mem → env.swap_memory = .ok swap →
      get_system_metrics prev env interval =
        ((get_network_speed prev env.net_current interval).1, some
          { cpu_percent := cpu
            cpu_freq := .na
            cpu_temp := get_cpu_temperature env.temp
            memory_total := mem.total
            memory_used := mem.used
            memory_percent := mem.percent
            swap_used := swap.used
            swap_percent := swap.percent
            network_speed := (get_network_speed prev env.net_current interval).2 }))
  ∧ ((env.cpu_percent = .error () ∨ env.cpu_freq = .error () ∨
      env.virtual_memory = .error () ∨ env.swap_memory = .error ()) →
      get_system_metrics prev env interval = (prev, none)) := by
  constructor
  · intro cpu mem swap h1 h2 h3 h4
    simp [get_system_metrics, h1, h2, h3, h4]
  · intro h
    cases e1 : env.cpu_percent <;> cases e2 : env.cpu_freq <;>
      cases e3 : env.virtual_memory <;> cases e4 : env.swap_memory <;>
      simp_all [get_system_metrics]

/-- Witness for C7's amended theorem: with `cpu_freq = None` and every
other collector fine, the snapshot is returned with only the frequency
field degraded to `"N/A"`; and flipping `cpu_freq` to a raising call
empties the sample. -/
theorem metric_degradation_witness :
    get_system_metrics ⟨0, 0⟩ { freqRaisesEnv with cpu_freq := .ok none } 300 =
      (⟨5000, 9000⟩, some
        { cpu_percent := 12
          cpu_freq := .na
          cpu_temp := .unavailable
          memory_total := 17179869184
          memory_used := 8589934592
          memory_percent := 50
          swap_used := 0
          swap_percent := 0
          network_speed := .available (50/3) 30 }) ∧
    get_system_metrics ⟨0, 0⟩ freqRaisesEnv 300 = (⟨0, 0⟩, none) := by
  constructor
  · have h := (metric_degradation ⟨0, 0⟩ { freqRaisesEnv with cpu_freq := .ok none } 300).1
      12 ⟨17179869184, 8589934592, 50⟩ ⟨0, 0⟩ rfl rfl rfl rfl
    rw [h]
    norm_num [get_network_speed, get_cpu_temperature, tempAttempt, method1, method2,
      method3, method4, freqRaisesEnv, quietTempEnv]
  · exact (metric_degradation ⟨0, 0⟩ freqRaisesEnv 300).2 (Or.inr (Or.inl rfl))

/-- C6 counterexample: the first-ever rate computation after startup is
*not* treated as a degraded/unavailable case — with startup counters
`(100, 200)` and first sample `(1100, 1700)`, it returns the ordinary
rate `(1000/300, 1500/300)` bytes/sec, which differs from the
unavailable result the claim prescribes. -/
theorem first_rate_counterexample :
    (get_network_speed (SystemMonitor.init ⟨100, 200⟩).prev_network_bytes
        (.ok ⟨1100, 1700⟩) (SystemMonitor.init ⟨100, 200⟩).alert_interval).2 =
      .available (10/3) 5 ∧
    SpeedResult.available (10/3) 5 ≠ .unavailable := by
  constructor
  · norm_num [SystemMonitor.init, get_network_speed, ALERT_INTERVAL]
  · simp

/-- C6 amended: `__init__` (line 46) stores the live counters sampled at
construction as the initial previous value, so the first-ever rate
computation has a valid baseline: for any startup counters and any first
sample it returns the ordinary rate — the delta accumulated since
startup divided by the 300-second interval — rather than an unavailable
result or a spurious huge rate derived from the absolute counter
values. -/
theorem first_rate_from_init_baseline (c0 c1 : NetworkCounters) :
    get_network_speed (SystemMonitor.init c0).prev_network_bytes (.ok c1)
        (SystemMonitor.init c0).alert_interval =
      (c1, .available ((c1.bytes_sent - c0.bytes_sent) / 300)
        ((c1.bytes_recv - c0.bytes_recv) / 300)) := by
  norm_num [SystemMonitor.init, get_network_speed, ALERT_INTERVAL]

/-- C3: for consecutive samples with a positive elapsed interval, the rate
is `(current - previous) / elapsed` per direction and the stored previous
counters are replaced by the current ones (exactly once — the returned
state is `current`). -/
theorem network_rate_delta_over_elapsed (prev current : NetworkCounters)
    (elapsed : ℚ) (h : 0 < elapsed) :
    get_network_speed prev (.ok current) elapsed =
      (current,
       .available ((current.bytes_sent - prev.bytes_sent) / elapsed)
         ((current.bytes_recv - prev.bytes_recv) / elapsed)) := by
  unfold get_network_speed
  simp [ne_of_gt h]

/-- Witness for C3: the spec's own example — previous `(100,200)`,
current `(1100,1700)`, elapsed 10 s — yields rates `(100,150)` bytes/sec
and the stored previous counters become `(1100,1700)`. -/
theorem network_rate_delta_over_elapsed_witness :
    get_network_speed ⟨100, 200⟩ (.ok ⟨1100, 1700⟩) 10 =
      (⟨1100, 1700⟩, .available 100 150) := by
  have h := network_rate_delta_over_elapsed ⟨100, 200⟩ ⟨1100, 1700⟩ 10 (by norm_num)
  rw [h]
  norm_num

/-- C4: with a zero elapsed interval the rate computation returns the
unavailable result `"N/A"` (the `ZeroDivisionError` is swallowed by the
bare `except:`) rather than propagating a division error; the stored
previous counters are left unchanged on this path. -/
theorem network_rate_zero_elapsed_unavailable (prev : NetworkCounters)
    (sample : Except Unit NetworkCounters) :
    get_network_speed prev sample 0 = (prev, .unavailable) := by
  cases sample <;> simp [get_network_speed]

/-! ## Notification dispatch (`send_telegram_message`, lines 187–237) -/

/-- Outcome of one `requests.post` call (line 229): an HTTP response
with its status code, or the call raising a transport error. -/
inductive TransportResult where
  | response (status : Nat)
  | raised
deriving DecidableEq

/-- One line appended to the log. -/
inductive LogEntry where
  | info (msg : String)
  | error (msg : String)
deriving DecidableEq

/-- What one `send_telegram_message` call produced.  `prev` is the new
`self.prev_network_bytes`; `remaining` the transport outcomes not
consumed (the call consumes exactly one — a no-retry record);
`body_metrics` the snapshot the message body was rendered from (the
full template rendering of lines 206–221 is abstracted to this
snapshot). -/
structure SendResult where
  prev : NetworkCounters
  remaining : List TransportResult
  log : LogEntry
  body_metrics : Option Metrics
deriving DecidableEq

/-- Model of `SystemMonitor.send_telegram_message` (lines 187–237).  The whole
body sits in a `try`: it takes a fresh metrics sample (line 191, which
replaces the stored network counters on success), renders the message
from that sample, posts it once, and logs info on status 200 (line 232)
or error otherwise (line 234); the `except` at lines 236–237 turns a
raised transport error into a logged error.  Every path returns
normally — the function is total and its caller never sees an
exception.  An empty transport oracle is treated as the post raising. -/
def send_telegram_message (st : NetworkCounters) (env : MetricsEnv)
    (alert_interval : ℚ) (title : String) (message_type : String)
    (transports : List TransportResult) : SendResult :=
  let s := get_system_metrics st env alert_interval
  match transports with
  | [] =>
    { prev := s.1, remaining := [],
      log := .error "Error sending Telegram message", body_metrics := s.2 }
  | t :: rest =>
    match t with
    | .response code =>
      if code = 200 then
        { prev := s.1, remaining := rest,
          log := .info ("Telegram message sent: " ++ title), body_metrics := s.2 }
      else
        { prev := s.1, remaining := rest,
          log := .error ("Failed to send Telegram message. Status code: " ++ toString code),
          body_metrics := s.2 }
    | .raised =>
      { prev := s.1, remaining := rest,
        log := .error "Error sending Telegram message", body_metrics := s.2 }

/-- C8: a notification call consumes exactly one transport outcome (no
retry within the call) and, whatever that outcome is, returns normally
with a log record: an info log on HTTP 200, an error log on any other
status code, and an error log on a raised transport error.  (That the
call never raises to its caller is the totality of
`send_telegram_message` itself: every input yields a `SendResult`.) -/
theorem notify_logs_and_returns (st : NetworkCounters) (env : MetricsEnv)
    (interval : ℚ) (title mt : String) (t : TransportResult)
    (rest : List TransportResult) :
    (send_telegram_message st env interval title mt (t :: rest)).remaining = rest
  ∧ (t = .response 200 →
      (send_telegram_message st env interval title mt (t :: rest)).log =
        .info ("Telegram message sent: " ++ title))
  ∧ (∀ code, t = .response code → code ≠ 200 →
      (send_telegram_message st env interval title mt (t :: rest)).log =
        .error ("Failed to send Telegram message. Status code: " ++ toString code))
  ∧ (t = .raised →
      (send_telegram_message st env interval title mt (t :: rest)).log =
        .error "Error sending Telegram message") := by
  refine ⟨?_, ?_, ?_, ?_⟩
  · cases t with
    | response code =>
      by_cases h : code = 200 <;> simp [send_telegram_message, h]
    | raised => simp [send_telegram_message]
  · rintro rfl
    simp [send_telegram_message]
  · rintro code rfl hne
    simp [send_telegram_message, hne]
  · rintro rfl
    simp [send_telegram_message]

/-- Witness for C8: a concrete 200 response logs success, a concrete 500
response logs the failure with its code, a raised transport error logs
the generic failure, and each consumes exactly its own outcome. -/
theorem notify_logs_and_returns_witness :
    (send_telegram_message ⟨0, 0⟩ freqRaisesEnv 300 "Regular Status Update" "status"
        [.response 200]).log = .info "Telegram message sent: Regular Status Update"
  ∧ (send_telegram_message ⟨0, 0⟩ freqRaisesEnv 300 "Regular Status Update" "status"
        [.response 500]).log =
      .error ("Failed to send Telegram message. Status code: " ++ toString 500)
  ∧ (send_telegram_message ⟨0, 0⟩ freqRaisesEnv 300 "Regular Status Update" "status"
        [.raised]).remaining = [] := by
  refine ⟨?_, ?_, ?_⟩
  · exact (notify_logs_and_returns ⟨0, 0⟩ freqRaisesEnv 300 "Regular Status Update"
      "status" (.response 200) []).2.1 rfl
  · exact (notify_logs_and_returns ⟨0, 0⟩ freqRaisesEnv 300 "Regular Status Update"
      "status" (.response 500) []).2.2.1 500 rfl (by decide)
  · exact (notify_logs_and_returns ⟨0, 0⟩ freqRaisesEnv 300 "Regular Status Update"
      "status" .raised []).1

/-! ## The two monitoring loops
(`alert_monitor`, lines 274–282; `status_update`, lines 284–292) -/

/-- One observable event of a loop iteration. -/
inductive LoopEvent where
  | ranBody
  | logged (msg : String)
  | slept (seconds : ℚ)
deriving DecidableEq

/-- One iteration of the `while True:` of `alert_monitor`
(lines 276–282).  `fault = some e` models the tick body
(`check_thresholds()` or the sleep) raising an unexpected exception with
message `e`; the `except` then logs it and sleeps one interval.  The
returned `Bool` says whether control reaches the next iteration — it is
`true` on every path, since the handler swallows every exception and the
loop has no `break` or `return`. -/
def alert_monitor_iter (fault : Option String) (alert_interval : ℚ) :
    List LoopEvent × Bool :=
  match fault with
  | none => ([.ranBody, .slept alert_interval], true)
  | some e => ([.logged ("Error in alert monitoring: " ++ e), .slept alert_interval], true)

/-- One iteration of the `while True:` of `status_update`
(lines 286–292), same shape as `alert_monitor_iter` with the status
interval and log text. -/
def status_update_iter (fault : Option String) (status_interval : ℚ) :
    List LoopEvent × Bool :=
  match fault with
  | none => ([.ranBody, .slept status_interval], true)
  | some e => ([.logged ("Error in status update: " ++ e), .slept status_interval], true)

/-- The alert loop run over a schedule of tick outcomes: every scheduled
tick is processed, none terminates the loop. -/
def alert_monitor_run (faults : List (Option String)) (alert_interval : ℚ) :
    List LoopEvent :=
  match faults with
  | [] => []
  | f :: fs => (alert_monitor_iter f alert_interval).1 ++ alert_monitor_run fs alert_interval

/-- The status loop run over a schedule of tick outcomes. -/
def status_update_run (faults : List (Option String)) (status_interval : ℚ) :
    List LoopEvent :=
  match faults with
  | [] => []
  | f :: fs => (status_update_iter f status_interval).1 ++ status_update_run fs status_interval

theorem alert_monitor_iter_one_sleep (f : Option String) (ai : ℚ) :
    ((alert_monitor_iter f ai).1.count (.slept ai)) = 1 := by
  cases f <;> simp [alert_monitor_iter, List.count_cons]

theorem status_update_iter_one_sleep (f : Option String) (si : ℚ) :
    ((status_update_iter f si).1.count (.slept si)) = 1 := by
  cases f <;> simp [status_update_iter, List.count_cons]

/-- C9: on every tick outcome, both loop iterations hand control to the
next iteration (the continue flag is `true` on every path — a raised
exception never terminates either loop); a faulting tick produces
exactly a logged error followed by a one-interval sleep before resuming;
and over any schedule of tick outcomes each loop performs one
interval-sleep per scheduled tick — every tick is processed, the loop
never exits early. -/
theorem loops_never_exit (faults : List (Option String)) (f : Option String)
    (e : String) (ai si : ℚ) :
    (alert_monitor_iter f ai).2 = true
  ∧ (status_update_iter f si).2 = true
  ∧ (alert_monitor_iter (some e) ai).1 =
      [.logged ("Error in alert monitoring: " ++ e), .slept ai]
  ∧ (status_update_iter (some e) si).1 =
      [.logged ("Error in status update: " ++ e), .slept si]
  ∧ (alert_monitor_run faults ai).count (.slept ai) = faults.length
  ∧ (status_update_run faults si).count (.slept si) = faults.length := by
  refine ⟨?_, ?_, rfl, rfl, ?_, ?_⟩
  · cases f <;> rfl
  · cases f <;> rfl
  · induction faults with
    | nil => rfl
    | cons g gs ih =>
      simp [alert_monitor_run, List.count_append, ih, alert_monitor_iter_one_sleep,
        Nat.add_comm]
  · induction faults with
    | nil => rfl
    | cons g gs ih =>
      simp [status_update_run, List.count_append, ih, status_update_iter_one_sleep,
        Nat.add_comm]

/-! ## One full alert tick (`check_thresholds`, lines 239–272, with its
notification side effects) -/

/-- Does this `get_system_metrics` call execute line 97, overwriting
`self.prev_network_bytes`?  It does exactly when the four psutil calls
and the network sample all succeed and the interval divisor is
non-zero. -/
def sampleOverwrites (env : MetricsEnv) (interval : ℚ) : Bool :=
  match env.cpu_percent, env.cpu_freq, env.virtual_memory, env.swap_memory,
      env.net_current with
  | .ok _, .ok _, .ok _, .ok _, .ok _ => if interval = 0 then false else true
  | _, _, _, _, _ => false

/-- Every collector of this tick environment succeeds (the nominal
case: psutil healthy and a network sample obtained). -/
def envLive (env : MetricsEnv) : Prop :=
  (∃ v, env.cpu_percent = .ok v) ∧ (∃ v, env.cpu_freq = .ok v) ∧
  (∃ v, env.virtual_memory = .ok v) ∧ (∃ v, env.swap_memory = .ok v) ∧
  (∃ v, env.net_current = .ok v)

theorem sampleOverwrites_of_live (env : MetricsEnv) (interval : ℚ)
    (h : envLive env) (hi : interval ≠ 0) : sampleOverwrites env interval = true := by
  obtain ⟨⟨a, ha⟩, ⟨b, hb⟩, ⟨c, hc⟩, ⟨d, hd⟩, ⟨n, hn⟩⟩ := h
  simp [sampleOverwrites, ha, hb, hc, hd, hn, hi]

theorem get_system_metrics_state_of_live (st : NetworkCounters) (env : MetricsEnv)
    (interval : ℚ) (h : envLive env) (hi : interval ≠ 0) :
    ∃ n, env.net_current = .ok n ∧ (get_system_metrics st env interval).1 = n := by
  obtain ⟨⟨a, ha⟩, ⟨b, hb⟩, ⟨c, hc⟩, ⟨d, hd⟩, ⟨n, hn⟩⟩ := h
  exact ⟨n, hn, by simp [get_system_metrics, ha, hb, hc, hd, hn, get_network_speed, hi]⟩

/-- The sequence of `send_telegram_message` calls `check_thresholds`
makes for the alerts it fired, in source order (lines 245–272), each
call consuming its own fresh tick environment and transport outcome.
Returns the final stored counters, the (title, body snapshot) record of
each notification, and how many of those calls overwrote the stored
previous counters.  An exhausted oracle (more alerts than prepared
environments) stops the run; the theorems below assume enough are
prepared. -/
def runSends (interval : ℚ) : NetworkCounters → List Alert →
    List (MetricsEnv × TransportResult) →
    NetworkCounters × List (String × Option Metrics) × Nat
  | st, [], _ => (st, [], 0)
  | st, _ :: _, [] => (st, [], 0)
  | st, a :: as, (e, t) :: es =>
    let r := send_telegram_message st e interval (alertTitle a) "alert" [t]
    let k := runSends interval r.prev as es
    (k.1, (alertTitle a, r.body_metrics) :: k.2.1,
      (if sampleOverwrites e interval then 1 else 0) + k.2.2)

/-- Result of one full `check_thresholds` tick. -/
structure CheckRun where
  prev : NetworkCounters
  sent : List (String × Option Metrics)
  overwrites : Nat
deriving DecidableEq

/-- One full `check_thresholds` tick (lines 239–272) with its side
effects: the tick's own metrics sample (line 241, possibly overwriting
the stored counters), the threshold decisions taken on *that* snapshot,
then one `send_telegram_message` per fired alert, each taking its own
fresh sample. -/
def check_thresholds_run (st : NetworkCounters) (menv : MetricsEnv)
    (disk : List DiskUsage) (threshold interval : ℚ)
    (sends : List (MetricsEnv × TransportResult)) : CheckRun :=
  let s := get_system_metrics st menv interval
  let alerts := check_thresholds_fired s.2 disk threshold
  let k := runSends interval s.1 alerts sends
  { prev := k.1, sent := k.2.1,
    overwrites := (if sampleOverwrites menv interval then 1 else 0) + k.2.2 }

theorem runSends_overwrites (interval : ℚ) (hi : interval ≠ 0) :
    ∀ (alerts : List Alert) (sends : List (MetricsEnv × TransportResult))
      (st : NetworkCounters), alerts.length = sends.length →
      (∀ p ∈ sends, envLive p.1) →
      (runSends interval st alerts sends).2.2 = alerts.length := by
  intro alerts
  induction alerts with
  | nil => intro sends st _ _; rfl
  | cons a as ih =>
    intro sends st hlen hlive
    cases sends with
    | nil => simp at hlen
    | cons p es =>
      obtain ⟨e, t⟩ := p
      have he : envLive e := hlive (e, t) (by simp)
      have : (runSends interval
          (send_telegram_message st e interval (alertTitle a) "alert" [t]).prev as es).2.2 =
          as.length :=
        ih es _ (by simpa using hlen) (fun q hq => hlive q (by simp [hq]))
      simp [runSends, this, sampleOverwrites_of_live e interval he hi, Nat.add_comm]

/-- C10: every notification call takes its own fresh metrics sample,
which overwrites the stored previous network counters: on a nominal tick
(every collector live, non-zero interval, one prepared environment per
fired alert) the stored counters are overwritten exactly `N + 1` times
when `N` alerts fire — once by the threshold check's own sample and once
per notification.  Moreover each notification body is rendered from its
own sample, not from the snapshot that triggered the alert: replacing
the trigger environment by any live one with the same network counter
sample and the same threshold decisions changes no notification body and
not the final stored counters. -/
theorem notification_fresh_samples (st : NetworkCounters) (menv : MetricsEnv)
    (disk : List DiskUsage) (T interval : ℚ)
    (sends : List (MetricsEnv × TransportResult))
    (hi : interval ≠ 0) (hm : envLive menv)
    (hs : ∀ p ∈ sends, envLive p.1)
    (hlen : (check_thresholds_fired (get_system_metrics st menv interval).2 disk T).length
      = sends.length) :
    (check_thresholds_run st menv disk T interval sends).overwrites =
      (check_thresholds_fired (get_system_metrics st menv interval).2 disk T).length + 1
  ∧ (∀ menv', envLive menv' → menv'.net_current = menv.net_current →
      check_thresholds_fired (get_system_metrics st menv' interval).2 disk T =
        check_thresholds_fired (get_system_metrics st menv interval).2 disk T →
      (check_thresholds_run st menv' disk T interval sends).sent =
        (check_thresholds_run st menv disk T interval sends).sent ∧
      (check_thresholds_run st menv' disk T interval sends).prev =
        (check_thresholds_run st menv disk T interval sends).prev) := by
  constructor
  · have h1 := sampleOverwrites_of_live menv interval hm hi
    have h2 := runSends_overwrites interval hi
      (check_thresholds_fired (get_system_metrics st menv interval).2 disk T) sends
      (get_system_metrics st menv interval).1 hlen hs
    simp [check_thresholds_run, h1, h2, Nat.add_comm]
  · intro menv' hm' hnet halerts
    obtain ⟨n, hn, hst⟩ := get_system_metrics_state_of_live st menv interval hm hi
    obtain ⟨n', hn', hst'⟩ := get_system_metrics_state_of_live st menv' interval hm' hi
    have hnn : n' = n := by
      rw [hnet, hn] at hn'
      exact (Except.ok.inj hn').symm
    constructor <;> simp [check_thresholds_run, hst, hst', hnn, halerts]

/-- A fully live tick environment whose snapshot has memory at 85 %,
CPU at 10 %, swap at 0 %. -/
def liveSendEnv : MetricsEnv :=
  { cpu_percent := .ok 10
    cpu_freq := .ok (some 2400)
    virtual_memory := .ok ⟨17179869184, 8589934592, 85⟩
    swap_memory := .ok ⟨0, 0⟩
    temp := quietTempEnv
    net_current := .ok ⟨6000, 12000⟩ }

/-- The same live environment with an earlier network counter sample:
the snapshot that triggers the threshold check. -/
def triggerEnv : MetricsEnv :=
  { liveSendEnv with net_current := .ok ⟨3000, 6000⟩ }

/-- Witness for C10: with threshold 80, `triggerEnv`'s snapshot fires
exactly one alert (memory at 85 %), and the full tick overwrites the
stored counters twice — once for the check's own sample, once for the
notification's; raising the trigger environment's CPU reading to a
still-quiet 20 % changes neither the notification bodies nor the final
counters. -/
theorem notification_fresh_samples_witness :
    (check_thresholds_run ⟨0, 0⟩ triggerEnv [⟨"/", 50⟩] 80 300
      [(liveSendEnv, .response 200)]).overwrites = 2
  ∧ (check_thresholds_run ⟨0, 0⟩ { triggerEnv with cpu_percent := .ok 20 }
      [⟨"/", 50⟩] 80 300 [(liveSendEnv, .response 200)]).sent =
    (check_thresholds_run ⟨0, 0⟩ triggerEnv [⟨"/", 50⟩] 80 300
      [(liveSendEnv, .response 200)]).sent := by
  have htrig : envLive triggerEnv :=
    ⟨⟨10, rfl⟩, ⟨some 2400, rfl⟩, ⟨⟨17179869184, 8589934592, 85⟩, rfl⟩,
      ⟨⟨0, 0⟩, rfl⟩, ⟨⟨3000, 6000⟩, rfl⟩⟩
  have hsends : ∀ p ∈ [(liveSendEnv, TransportResult.response 200)], envLive p.1 := by
    intro p hp
    have hp' : p = (liveSendEnv, TransportResult.response 200) := by simpa using hp
    subst hp'
    exact ⟨⟨10, rfl⟩, ⟨some 2400, rfl⟩, ⟨⟨17179869184, 8589934592, 85⟩, rfl⟩,
      ⟨⟨0, 0⟩, rfl⟩, ⟨⟨6000, 12000⟩, rfl⟩⟩
  have h := notification_fresh_samples ⟨0, 0⟩ triggerEnv [⟨"/", 50⟩] 80 300
    [(liveSendEnv, .response 200)] (by norm_num) htrig hsends (by decide)
  constructor
  · rw [h.1]
    decide
  · exact (h.2 { triggerEnv with cpu_percent := .ok 20 }
      ⟨⟨20, rfl⟩, ⟨some 2400, rfl⟩, ⟨⟨17179869184, 8589934592, 85⟩, rfl⟩,
        ⟨⟨0, 0⟩, rfl⟩, ⟨⟨3000, 6000⟩, rfl⟩⟩ rfl (by decide)).1

end SelfWatchdog
